import Mathlib

/-!
Verification of the TCP listener (`src/listener.cc`, namespace `Net::Tcp`)
against its design specification.

The C++ component is embedded shallowly: pure computations become Lean
functions, stateful member functions become explicit state transformers on a
`ListenerState` record, syscall outcomes are supplied by environment records,
and each observable side effect (worker stop requests, socket operations,
dispatches) is reified as an event in a trace list.  Machine integers are
embedded as `Int`/`Nat` (no overflow is reachable in the modelled ranges);
the `double` arithmetic of the load monitor operates on exact integral
microsecond counts, so it is embedded over `Int` and `ℚ`.
-/

set_option autoImplicit false

namespace Tcp

/-- The socket option flags of `enum class Options`; `Flags<Options>` is a
bitset over them, embedded as one Boolean per flag. -/
structure OptionFlags where
  reuseAddr : Bool := false
  linger : Bool := false
  fastOpen : Bool := false
  noDelay : Bool := false
  installSignalHandler : Bool := false
deriving Repr, DecidableEq

/-- The `Address` value type (external collaborator): host string + port. -/
structure Address where
  host : String
  port : Nat
deriving Repr, DecidableEq

/-- The C++ exceptions thrown in `listener.cc`.  `osError` stands for the
`std::runtime_error` produced by the `TRY` macro around a failing syscall and
by `strerror(errno)` in the accept loop; `runtimeError`, `domainError` and
`invalidArgument` mirror the exception objects constructed directly in the
listener's own code. -/
inductive CppError where
  | runtimeError (msg : String)
  | domainError (msg : String)
  | invalidArgument (msg : String)
  | osError (msg : String)
deriving Repr, DecidableEq

/-- The spec's error taxonomy: a ConfigurationError is an invalid call
sequence, an out-of-range worker index, or a signal-handler installation
failure — exactly the errors `listener.cc` raises itself, as opposed to the
propagated syscall failures. -/
def CppError.isConfigurationError : CppError → Bool
  | .runtimeError _ => true
  | .domainError _ => true
  | .invalidArgument _ => true
  | .osError _ => false

/-! ### `Listener::pinWorker` (listener.cc 107–119) -/

/-- Outcome of `Listener::pinWorker`: a thrown exception, a `pin(set)` call on
the worker at the given pool index, or an out-of-bounds
`std::vector::operator[]` access (undefined behavior in C++). -/
inductive PinResult where
  | threw (e : CppError)
  | pinned (idx : Nat)
  | outOfBoundsAccess (idx : Nat)
deriving Repr, DecidableEq

/-- `Listener::pinWorker(worker, set)` with `ioGroup.size() = n`.  The CPU set
argument is opaque and does not influence control flow, so it is omitted.
Mirrors the source: an empty pool throws `std::domain_error`;
`worker > ioGroup.size()` (note: strictly greater) throws
`std::invalid_argument`; otherwise `ioGroup[worker]->pin(set)` runs, which for
`worker = n` is an access one past the end of the vector. -/
def pinWorker (n worker : Nat) : PinResult :=
  if n = 0 then
    .threw (.domainError "Invalid operation, did you call init() before ?")
  else if worker > n then
    .threw (.invalidArgument "Trying to pin invalid worker")
  else if worker < n then
    .pinned worker
  else
    .outOfBoundsAccess worker

/-! ### `Listener::dispatchPeer` (listener.cc 272–279) -/

/-- `Listener::dispatchPeer(peer)` with `ioGroup.size() = n` and accepted
descriptor value `d` (non-negative, as produced by a successful `accept`):
the list of pool indices whose worker receives `handleNewPeer` for this
connection.  The source computes `worker = peer->fd() % workers` and calls
`ioGroup[worker]->handleNewPeer(peer)`; with `n = 0` the modulo is undefined
in C++ (unreachable after a successful `bind`), embedded as no delivery. -/
def dispatchPeer (n d : Nat) : List Nat :=
  if n = 0 then [] else [d % n]

/-! ### `Listener::shutdown` (listener.cc 254–260) -/

/-- Observable side effects of `Listener::shutdown`. -/
inductive ShutdownEvent where
  | stop (worker : Nat)
  | flagSet
deriving Repr, DecidableEq

/-- The side-effect trace of one `Listener::shutdown()` call on a pool of `n`
workers, in program order: `worker->shutdown()` for each pool index in
iteration order of `ioGroup`, then the write `sh = true`. -/
def shutdownTrace (n : Nat) : List ShutdownEvent :=
  (List.range n).map ShutdownEvent.stop ++ [ShutdownEvent.flagSet]

/-! ### Host rewriting and port formatting in `Listener::bind`
(listener.cc 140–153) -/

/-- listener.cc 140–143: the host handed to `getaddrinfo`, with the wildcard
`"*"` rewritten to `"0.0.0.0"`. -/
def resolveHost (host : String) : String :=
  if host = "*" then "0.0.0.0" else host

/-- listener.cc 146–150: the port is truncated to `uint16_t` and printed with
`snprintf(port, sizeof("65535"), "%d", ...)`.  The printed string is embedded
as its decimal digit sequence, most significant digit first (`"%d"` prints a
single `0` for the value zero). -/
def portDigits (port : Nat) : List Nat :=
  let m := port % 65536
  if m = 0 then [0] else (Nat.digits 10 m).reverse

/-! ### Listener state and `Listener::init` (listener.cc 67–99) -/

/-- The state the claims observe: the `Listener` members touched by
`listener.cc` plus the file-scope `volatile sig_atomic_t g_listen_fd`. -/
structure ListenerState where
  addr : Address
  listen_fd : Int
  g_listen_fd : Int
  /-- `ioGroup.size()` — the pool holds only opaque `IoWorker`s, so its size
  is the whole observable content. -/
  workers : Nat
  options : OptionFlags
  backlog : Nat
  sh : Bool
deriving Repr, DecidableEq

/-- The state established by the constructors (listener.cc 67–77) together
with the initial value of the global `g_listen_fd`.  The class gives `sh` no
initializer and the constructors do not set it, so its initial value is
indeterminate and passed in as `sh0`.  `maxBacklog` stands for
`Const::MaxBacklog` (declared outside this file). -/
def freshListener (address : Address) (maxBacklog : Nat) (sh0 : Bool) : ListenerState :=
  { addr := address, listen_fd := -1, g_listen_fd := -1, workers := 0,
    options := {}, backlog := maxBacklog, sh := sh0 }

/-- `Listener::init(workers, options, backlog)` (listener.cc 79–99): records
options and backlog; if `InstallSignalHandler` is set and the `signal(2)` call
fails (environment answer `sigOk = false`), throws before any worker is
created; otherwise appends `workers` fresh `IoWorker`s to `ioGroup`. -/
def Listener.init (st : ListenerState) (workers : Nat) (options : OptionFlags)
    (backlog : Nat) (sigOk : Bool) : Except CppError Unit × ListenerState :=
  let st1 : ListenerState := { st with options := options, backlog := backlog }
  if options.installSignalHandler && !sigOk then
    (.error (.runtimeError "Could not install signal handler"), st1)
  else
    (.ok (), { st1 with workers := st1.workers + workers })

/-! ### `Listener::bind` (listener.cc 121–185) -/

/-- One `addrinfo` candidate, as the environment answers the syscalls the
loop body issues on it: the value `::socket` returns (negative = failure),
whether every `setsockopt` issued by `setSocketOptions` succeeds, whether
`::bind` succeeds, and whether `::listen` succeeds. -/
structure Candidate where
  socketFd : Int
  sockoptOk : Bool
  bindOk : Bool
  listenOk : Bool
deriving Repr, DecidableEq

/-- Observable side effects of `Listener::bind`. -/
inductive BindEvent where
  | socketOpened (fd : Int)
  | optionsApplied (fd : Int)
  | bindAttempt (fd : Int)
  | closed (fd : Int)
  | listenCall (fd : Int)
  | workerStarted (idx : Nat)
  | loadThreadStarted
deriving Repr, DecidableEq

/-- The candidate loop of `Listener::bind` (listener.cc 155–169).  The `Int`
argument is the running value of the local variable `fd`, which every
`::socket` call assigns (a failing one leaves its negative return value
there).  `TRY` around a failing `setsockopt` or `listen` throws; a failing
`::bind` closes the candidate's socket and continues.  The loop body contains
no `break`, so after a successful `listen` it still advances to the next
candidate. -/
def bindLoop : List Candidate → Int → List BindEvent →
    Except CppError (Int × List BindEvent)
  | [], fd, evs => .ok (fd, evs)
  | c :: rest, _, evs =>
    if c.socketFd < 0 then
      bindLoop rest c.socketFd evs
    else if !c.sockoptOk then
      .error (.osError "setsockopt")
    else if !c.bindOk then
      bindLoop rest c.socketFd
        (evs ++ [.socketOpened c.socketFd, .optionsApplied c.socketFd,
                 .bindAttempt c.socketFd, .closed c.socketFd])
    else if !c.listenOk then
      .error (.osError "listen")
    else
      bindLoop rest c.socketFd
        (evs ++ [.socketOpened c.socketFd, .optionsApplied c.socketFd,
                 .bindAttempt c.socketFd, .listenCall c.socketFd])

/-- Environment of one `Listener::bind` call: whether `getaddrinfo` succeeds
and the candidate list it resolves (in resolver order). -/
structure BindEnv where
  gaiOk : Bool
  candidates : List Candidate
deriving Repr, DecidableEq

/-- `Listener::bind(const Address&)` (listener.cc 126–185).  Result: the
thrown exception or the returned Boolean, the state after the call (i.e. the
mutations performed up to the throw point), and the side-effect trace.  On
the non-throwing path the final descriptor of the candidate loop is stored
into `listen_fd` and `g_listen_fd`, every worker is started, `sh` is cleared,
the load-monitor thread is started, and `true` is returned. -/
def Listener.bind (st : ListenerState) (address : Address) (env : BindEnv) :
    Except CppError Bool × ListenerState × List BindEvent :=
  if st.workers = 0 then
    (.error (.runtimeError "Call init() before calling bind()"), st, [])
  else
    let st1 : ListenerState := { st with addr := address }
    let _host := resolveHost address.host
    let _port := portDigits address.port
    if !env.gaiOk then
      (.error (.osError "getaddrinfo"), st1, [])
    else
      match bindLoop env.candidates (-1) [] with
      | .error e => (.error e, st1, [])
      | .ok (fd, evs) =>
        ( .ok true,
          { st1 with listen_fd := fd, g_listen_fd := fd, sh := false },
          evs ++ (List.range st1.workers).map BindEvent.workerStarted
              ++ [BindEvent.loadThreadStarted] )

/-- The no-argument overload `Listener::bind()` (listener.cc 121–124):
delegates to `bind(addr_)`. -/
def Listener.bindNoArg (st : ListenerState) (env : BindEnv) :
    Except CppError Bool × ListenerState × List BindEvent :=
  Listener.bind st st.addr env

/-! ### `Listener::run` (listener.cc 187–211) -/

/-- Environment of one iteration of the accept loop: the value `::accept`
returns (negative = failure) and the value of the global `g_listen_fd` the
loop reads when `accept` has failed. -/
structure AcceptStep where
  clientFd : Int
  gListenFd : Int
deriving Repr, DecidableEq

/-- Observable side effects of `Listener::run`. -/
inductive RunEvent where
  | madeNonBlocking (fd : Int)
  | handleNewPeer (worker : Nat) (fd : Int)
  | shutdownCall (n : Nat)
deriving Repr, DecidableEq

/-- Whether a run event is the invocation of `Listener::shutdown()`. -/
def RunEvent.isShutdownCall : RunEvent → Bool
  | .shutdownCall _ => true
  | _ => false

/-- How the accept loop left its infinite `for`. -/
inductive RunExit where
  | normal
  | threw (e : CppError)
  | pending
deriving Repr, DecidableEq

/-- `Listener::run` with `ioGroup.size() = n`, driven by a finite list of
accept outcomes (`pending` = list exhausted with the loop still blocked in
`accept`).  On a successful accept the client descriptor is made
non-blocking, wrapped into a `Peer` and dispatched via `dispatchPeer`; on a
failed accept with `g_listen_fd == -1` the loop calls `shutdown()` and
breaks; any other failure throws the OS error from `errno`. -/
def runLoop (n : Nat) : List AcceptStep → RunExit × List RunEvent
  | [] => (.pending, [])
  | s :: rest =>
    if s.clientFd < 0 then
      if s.gListenFd = -1 then
        (.normal, [.shutdownCall n])
      else
        (.threw (.osError "accept"), [])
    else
      let r := runLoop n rest
      ( r.1,
        .madeNonBlocking s.clientFd ::
          ((dispatchPeer n s.clientFd.toNat).map
            (fun w => RunEvent.handleNewPeer w s.clientFd)) ++ r.2 )

/-! ### `Listener::runLoadThread` (listener.cc 213–252) -/

/-- The `rusage` fields the monitor reads: `ru_utime` and `ru_stime`, each a
seconds + microseconds pair. -/
structure Rusage where
  utimeSec : Int
  utimeUsec : Int
  stimeSec : Int
  stimeUsec : Int
deriving Repr, DecidableEq

instance : Inhabited Rusage := ⟨0, 0, 0, 0⟩

/-- The `totalElapsed` lambda (listener.cc 227–230): system + user CPU time
in microseconds.  The C++ computes in `double`, but every operand is an
integral microsecond count (exactly representable), so the embedding is over
`Int`. -/
def totalElapsed (u : Rusage) : Int :=
  (u.stimeSec * 1000000 + u.stimeUsec) + (u.utimeSec * 1000000 + u.utimeUsec)

/-- The per-worker body of the delta loop (listener.cc 234–245): elapsed CPU
time `now - last` and the derived load percentage `time * 100.0 / 1e6`,
embedded exactly in `ℚ`. -/
def loadOf (last cur : Rusage) : ℚ :=
  ((totalElapsed cur - totalElapsed last : Int) : ℚ) * 100 / 1000000

/-- One completed round of the monitor's `whenAll` continuation
(listener.cc 226–248), given the cached `lastUsages` and the current round's
`usages`: the new cache and the computed loads (`none` on the baseline round,
which only caches).  The source indexes `lastUsages[i]` for
`i < usages.size()`; both vectors have one entry per pool worker in every
execution, and the in-bounds accesses are embedded with `getD`. -/
def loadRound (lastUsages usages : List Rusage) :
    List Rusage × Option (List ℚ) :=
  if lastUsages.isEmpty then
    (usages, none)
  else
    ( usages,
      some ((List.range usages.length).map fun i =>
        loadOf (lastUsages.getD i default) (usages.getD i default)) )

/-- The rounds of `Listener::runLoadThread` restricted to their data flow:
starting from cache `lastUsages` (initially empty), fold `loadRound` over the
successive `whenAll` results, one snapshot list per completed round. -/
def loadLoop : List Rusage → List (List Rusage) → List (Option (List ℚ))
  | _, [] => []
  | cache, us :: rest =>
    let step := loadRound cache us
    step.2 :: loadLoop step.1 rest

/-! ### The lifecycle state machine (for the shutdown-flag invariant) -/

/-- One public call on the listener, with the environment answers it
consumes. -/
inductive LOp where
  | opInit (workers : Nat) (options : OptionFlags) (backlog : Nat) (sigOk : Bool)
  | opBind (address : Address) (env : BindEnv)
  | opRun (steps : List AcceptStep)
  | opShutdown
deriving Repr, DecidableEq

/-- State effect of one call, from the definitions above.  `run` mutates the
listener state only through the `shutdown()` call of its signal path, taken
exactly when the loop exits normally. -/
def applyOp (st : ListenerState) : LOp → ListenerState
  | .opInit w o b sigOk => (Listener.init st w o b sigOk).2
  | .opBind a env => (Listener.bind st a env).2.1
  | .opRun steps =>
    if (runLoop st.workers steps).1 = RunExit.normal then
      { st with sh := true }
    else st
  | .opShutdown => { st with sh := true }

/-- The successive values of the `sh` member along a call sequence, starting
from (and including) the initial state's value. -/
def shTrace (st : ListenerState) : List LOp → List Bool
  | [] => [st.sh]
  | op :: rest => st.sh :: shTrace (applyOp st op) rest

/-- Whether a Boolean trace contains a `true` immediately followed by a
`false` — a reset of the flag. -/
def hasReset : List Bool → Bool
  | [] => false
  | [_] => false
  | a :: b :: rest => (a && !b) || hasReset (b :: rest)

/-- Number of `false`-to-`true` transitions in a Boolean trace. -/
def riseCount : List Bool → Nat
  | [] => 0
  | [_] => 0
  | a :: b :: rest => (if !a && b then 1 else 0) + riseCount (b :: rest)

/-- Calls after which no `bind` may follow for the amended flag invariant:
`shutdown`, and `run` (whose signal path invokes `shutdown`). -/
def LOp.isFlagSetting : LOp → Bool
  | .opShutdown => true
  | .opRun _ => true
  | _ => false

/-- Whether an op is a `bind` call (either overload rebinds and clears the
flag on its success path). -/
def LOp.isBind : LOp → Bool
  | .opBind _ _ => true
  | _ => false

/-- No `bind` call occurs after any `shutdown` or `run` call. -/
def noBindAfterStop : List LOp → Bool
  | [] => true
  | op :: rest =>
    if op.isFlagSetting then
      rest.all (fun o => !o.isBind) && noBindAfterStop rest
    else
      noBindAfterStop rest

/-! ## Concrete instances used by several theorems -/

/-- A listener initialized with one worker (no signal handler, default
options, backlog 128), as `init(1, {}, 128)` leaves it. -/
def oneWorkerListener : ListenerState :=
  (Listener.init (freshListener ⟨"*", 8080⟩ 128 false) 1 {} 128 true).2

/-- Two resolver candidates that both open, bind and listen successfully,
with descriptors 3 and 4. -/
def twoGoodCandidates : List Candidate :=
  [⟨3, true, true, true⟩, ⟨4, true, true, true⟩]

/-- A single resolver candidate whose `::bind` call fails. -/
def oneBindFailCandidate : List Candidate := [⟨3, true, false, true⟩]

/-! ## Claims -/

/-- C1: the spec demands that `pinWorker(index, set)` fail with the index
error for every `index ≥ N`; the source's range check uses `>` instead of
`≥`, so `index = N` escapes both guards and reaches `ioGroup[index]`, an
access one past the end of the worker vector (undefined behavior) with no
thrown index error.  Evaluated at pool size 1: index 1 hits the out-of-bounds
access, while index 0 pins worker 0 and index 2 throws as specified. -/
theorem C1_pinWorker_index_eq_size_not_rejected :
    pinWorker 1 1 = PinResult.outOfBoundsAccess 1 ∧
    pinWorker 1 0 = PinResult.pinned 0 ∧
    pinWorker 1 2 =
      PinResult.threw (CppError.invalidArgument "Trying to pin invalid worker") :=
  ⟨rfl, rfl, rfl⟩

/-- C5: with a pool of `n ≥ 1` workers, `dispatchPeer` delivers a connection
with descriptor value `d` to exactly the worker at pool index `d % n` (a
valid pool index, and no other worker), and the routing is a deterministic
function of the descriptor value. -/
theorem C5_dispatchPeer_routes_to_fd_mod_n (n d : Nat) (h : 1 ≤ n) :
    dispatchPeer n d = [d % n] ∧ d % n < n ∧
    (∀ d2, d2 = d → dispatchPeer n d2 = dispatchPeer n d) := by
  refine ⟨?_, Nat.mod_lt d h, fun d2 hd => by rw [hd]⟩
  simp [dispatchPeer, Nat.one_le_iff_ne_zero.mp h]

/-- Witness for C5, at the spec's own scenario: descriptors 10 and 14 against
a 4-worker pool both route to worker index 2. -/
theorem C5_witness :
    dispatchPeer 4 10 = [10 % 4] ∧ dispatchPeer 4 14 = [14 % 4] ∧ 10 % 4 < 4 :=
  ⟨(C5_dispatchPeer_routes_to_fd_mod_n 4 10 (by decide)).1,
   (C5_dispatchPeer_routes_to_fd_mod_n 4 14 (by decide)).1,
   (C5_dispatchPeer_routes_to_fd_mod_n 4 10 (by decide)).2.1⟩

/-- C8: one `shutdown()` call on a pool of `n ≥ 1` workers sends each worker
exactly one stop request, in pool index order (the stop of worker `i` is the
`i`-th side effect), sends nothing to indices outside the pool, and performs
the flag write only after all `n` stop requests, as the final side effect. -/
theorem C8_shutdown_stops_each_worker_once_in_order (n : Nat) (h : 1 ≤ n) :
    (∀ i, i < n → (shutdownTrace n).count (ShutdownEvent.stop i) = 1) ∧
    (∀ i, n ≤ i → (shutdownTrace n).count (ShutdownEvent.stop i) = 0) ∧
    (∀ i, i < n → (shutdownTrace n)[i]? = some (ShutdownEvent.stop i)) ∧
    (shutdownTrace n)[n]? = some ShutdownEvent.flagSet ∧
    (shutdownTrace n).length = n + 1 := by
  have hinj : Function.Injective ShutdownEvent.stop := by
    intro a b hab
    cases hab
    rfl
  refine ⟨fun i hi => ?_, fun i hi => ?_, fun i hi => ?_, ?_, by simp [shutdownTrace]⟩
  · rw [shutdownTrace, List.count_append,
      List.count_map_of_injective _ _ hinj,
      List.count_eq_one_of_mem (List.nodup_range n) (List.mem_range.mpr hi)]
    simp
  · rw [shutdownTrace, List.count_append,
      List.count_eq_zero_of_not_mem (by
        simp only [List.mem_map, List.mem_range]
        rintro ⟨j, hj, hji⟩
        cases hinj hji
        omega)]
    simp
  · rw [shutdownTrace, List.getElem?_append, if_pos (by simpa using hi),
      List.getElem?_map, List.getElem?_range hi]
    rfl
  · rw [shutdownTrace, List.getElem?_append, if_neg (by simp)]
    simp

/-- Witness for C8 at a pool of two workers. -/
theorem C8_witness :
    (shutdownTrace 2).count (ShutdownEvent.stop 0) = 1 ∧
    (shutdownTrace 2).count (ShutdownEvent.stop 1) = 1 ∧
    (shutdownTrace 2).count (ShutdownEvent.stop 2) = 0 ∧
    (shutdownTrace 2)[2]? = some ShutdownEvent.flagSet ∧
    (shutdownTrace 2).length = 2 + 1 :=
  ⟨(C8_shutdown_stops_each_worker_once_in_order 2 (by decide)).1 0 (by decide),
   (C8_shutdown_stops_each_worker_once_in_order 2 (by decide)).1 1 (by decide),
   (C8_shutdown_stops_each_worker_once_in_order 2 (by decide)).2.1 2 (by decide),
   (C8_shutdown_stops_each_worker_once_in_order 2 (by decide)).2.2.2.1,
   (C8_shutdown_stops_each_worker_once_in_order 2 (by decide)).2.2.2.2⟩

/-- C9: the wildcard host `"*"` is rewritten to the unspecified IPv4 address
`"0.0.0.0"` before resolution, every other host string passes through
unchanged, and the port handed to the resolver prints as a decimal string of
at most 5 digits. -/
theorem C9_host_rewrite_and_port_format (host : String) (port : Nat)
    (h : host ≠ "*") :
    resolveHost "*" = "0.0.0.0" ∧ resolveHost host = host ∧
    (portDigits port).length ≤ 5 := by
  refine ⟨rfl, by simp [resolveHost, h], ?_⟩
  unfold portDigits
  by_cases h0 : port % 65536 = 0
  · simp [h0]
  · simp only [h0, if_neg, ite_false, List.length_reverse]
    rw [Nat.digits_len 10 _ (by norm_num) h0]
    have hlt : port % 65536 < 10 ^ 5 :=
      lt_trans (Nat.mod_lt _ (by norm_num)) (by norm_num)
    have := Nat.log_lt_of_lt_pow h0 hlt
    omega

/-- Witness for C9 at host `"localhost"`, port 8080. -/
theorem C9_witness :
    resolveHost "*" = "0.0.0.0" ∧ resolveHost "localhost" = "localhost" ∧
    (portDigits 8080).length ≤ 5 :=
  C9_host_rewrite_and_port_format "localhost" 8080 (by decide)

/-- C7: calling either `bind` overload on a listener whose pool was never
initialized throws the configuration error ("Call init() before calling
bind()") and leaves the state — in particular the `listen_fd` member and the
global `g_listen_fd` record — exactly as it was. -/
theorem C7_bind_before_init_fails_without_effect (st : ListenerState)
    (address : Address) (env : BindEnv) (h : st.workers = 0) :
    ∃ e, CppError.isConfigurationError e = true ∧
      Listener.bind st address env = (Except.error e, st, []) ∧
      Listener.bindNoArg st env = (Except.error e, st, []) ∧
      (Listener.bind st address env).2.1.listen_fd = st.listen_fd ∧
      (Listener.bind st address env).2.1.g_listen_fd = st.g_listen_fd := by
  refine ⟨CppError.runtimeError "Call init() before calling bind()", rfl, ?_, ?_, ?_, ?_⟩ <;>
    simp [Listener.bind, Listener.bindNoArg, h]

/-- Witness for C7 on a freshly constructed listener. -/
theorem C7_witness :
    ∃ e, CppError.isConfigurationError e = true ∧
      Listener.bind (freshListener ⟨"*", 8080⟩ 128 false) ⟨"*", 8080⟩ ⟨true, []⟩ =
        (Except.error e, freshListener ⟨"*", 8080⟩ 128 false, []) ∧
      Listener.bindNoArg (freshListener ⟨"*", 8080⟩ 128 false) ⟨true, []⟩ =
        (Except.error e, freshListener ⟨"*", 8080⟩ 128 false, []) ∧
      (Listener.bind (freshListener ⟨"*", 8080⟩ 128 false) ⟨"*", 8080⟩ ⟨true, []⟩).2.1.listen_fd =
        (freshListener ⟨"*", 8080⟩ 128 false).listen_fd ∧
      (Listener.bind (freshListener ⟨"*", 8080⟩ 128 false) ⟨"*", 8080⟩ ⟨true, []⟩).2.1.g_listen_fd =
        (freshListener ⟨"*", 8080⟩ 128 false).g_listen_fd :=
  C7_bind_before_init_fails_without_effect (freshListener ⟨"*", 8080⟩ 128 false)
    ⟨"*", 8080⟩ ⟨true, []⟩ rfl

/-- Normal-return contract of `bind`: whenever the call does not throw, the
returned Boolean is `true`. -/
def normalReturnIsTrue : Except CppError Bool → Prop
  | .ok b => b = true
  | .error _ => True

/-- On every non-throwing path `Listener::bind` returns the literal `true`
(listener.cc 184: `return true;` is the only `return` of the Address
overload). -/
theorem bind_result_normalReturnIsTrue (st : ListenerState) (address : Address)
    (env : BindEnv) : normalReturnIsTrue (Listener.bind st address env).1 := by
  unfold Listener.bind
  split
  · trivial
  · split
    · trivial
    · rcases hbl : bindLoop _ (-1) [] with e | p <;> simp [hbl, normalReturnIsTrue]

/-- C10: `bind` reports success unconditionally on every non-throwing path —
the Boolean result never carries failure.  In particular, with a single
resolver candidate whose `::bind` fails (so no socket is left in the
listening state), the call still returns `true` and records the closed
candidate descriptor 3 in `listen_fd` and `g_listen_fd`. -/
theorem C10_bind_normal_return_always_true (st : ListenerState)
    (address : Address) (env : BindEnv) :
    normalReturnIsTrue (Listener.bind st address env).1 ∧
    normalReturnIsTrue (Listener.bindNoArg st env).1 ∧
    (Listener.bind oneWorkerListener ⟨"*", 8080⟩ ⟨true, oneBindFailCandidate⟩).1 =
      Except.ok true ∧
    (Listener.bind oneWorkerListener ⟨"*", 8080⟩ ⟨true, oneBindFailCandidate⟩).2.1.listen_fd = 3 ∧
    (Listener.bind oneWorkerListener ⟨"*", 8080⟩ ⟨true, oneBindFailCandidate⟩).2.1.g_listen_fd = 3 :=
  ⟨bind_result_normalReturnIsTrue st address env,
   bind_result_normalReturnIsTrue st st.addr env, rfl, rfl, rfl⟩

/-- C2: the candidate loop of `bind` lacks a `break` after the successful
`listen`, so iteration does not stop at the first successfully bound
candidate.  Evaluated on two candidates that both bind and listen
successfully (descriptors 3 and 4): after candidate 3 is listening, the loop
still opens, binds and listens candidate 4, and the recorded listening
descriptor is 4 — the last candidate, not the first successfully bound one,
which is leaked. -/
theorem C2_bind_iterates_past_first_success :
    bindLoop twoGoodCandidates (-1) [] =
      Except.ok (4,
        [BindEvent.socketOpened 3, BindEvent.optionsApplied 3,
         BindEvent.bindAttempt 3, BindEvent.listenCall 3,
         BindEvent.socketOpened 4, BindEvent.optionsApplied 4,
         BindEvent.bindAttempt 4, BindEvent.listenCall 4]) ∧
    (Listener.bind oneWorkerListener ⟨"*", 8080⟩ ⟨true, twoGoodCandidates⟩).2.1.listen_fd = 4 ∧
    (Listener.bind oneWorkerListener ⟨"*", 8080⟩ ⟨true, twoGoodCandidates⟩).1 =
      Except.ok true :=
  ⟨rfl, rfl, rfl⟩

/-- Successful accepts are pass-through for the accept loop: a prefix of
non-negative accept results neither changes how the loop exits nor
contributes any `shutdown()` invocation. -/
theorem runLoop_success_prefix (n : Nat) (pre tail : List AcceptStep)
    (hpre : ∀ t ∈ pre, 0 ≤ t.clientFd) :
    (runLoop n (pre ++ tail)).1 = (runLoop n tail).1 ∧
    (runLoop n (pre ++ tail)).2.countP RunEvent.isShutdownCall =
      (runLoop n tail).2.countP RunEvent.isShutdownCall := by
  induction pre with
  | nil => simp
  | cons t ts ih =>
    have ht : ¬ t.clientFd < 0 := not_lt.mpr (hpre t (by simp))
    have ih2 := ih (fun x hx => hpre x (by simp [hx]))
    simp only [List.cons_append, runLoop, ht, if_false, List.countP_cons,
      List.countP_append, List.countP_map, List.append_eq]
    refine ⟨ih2.1, ?_⟩
    rw [ih2.2]
    simp [RunEvent.isShutdownCall, Function.comp_def]

/-- C4: for an accept-loop execution consisting of successful accepts `pre`
followed by a failing accept `s`: if the global listening-descriptor record
has been cleared (`g_listen_fd = -1`) the loop invokes `shutdown()` exactly
once and exits normally without propagating an error; if the record is still
set, the loop exits by throwing the OS error and never invokes `shutdown()`;
and a run of successful accepts alone (still blocked in `accept`) performs no
`shutdown()` call at all. -/
theorem C4_run_accept_failure_paths (n : Nat) (pre rest : List AcceptStep)
    (s : AcceptStep) (hpre : ∀ t ∈ pre, 0 ≤ t.clientFd) (hfail : s.clientFd < 0) :
    (s.gListenFd = -1 →
      (runLoop n (pre ++ s :: rest)).1 = RunExit.normal ∧
      (runLoop n (pre ++ s :: rest)).2.countP RunEvent.isShutdownCall = 1) ∧
    (s.gListenFd ≠ -1 →
      (runLoop n (pre ++ s :: rest)).1 = RunExit.threw (CppError.osError "accept") ∧
      (runLoop n (pre ++ s :: rest)).2.countP RunEvent.isShutdownCall = 0) ∧
    ((runLoop n pre).1 = RunExit.pending ∧
      (runLoop n pre).2.countP RunEvent.isShutdownCall = 0) := by
  have hp := runLoop_success_prefix n pre (s :: rest) hpre
  have hp0 := runLoop_success_prefix n pre [] hpre
  refine ⟨fun hg => ?_, fun hg => ?_, ?_⟩
  · rw [hp.1, hp.2]
    simp [runLoop, hfail, hg, RunEvent.isShutdownCall]
  · rw [hp.1, hp.2]
    simp [runLoop, hfail, hg, RunEvent.isShutdownCall]
  · have : pre ++ [] = pre := List.append_nil pre
    rw [← this]
    rw [hp0.1, hp0.2]
    simp [runLoop]

/-- Witness for C4: two workers, one successful accept of descriptor 7, then
a failed accept with the global record cleared. -/
theorem C4_witness :
    ((⟨-1, -1⟩ : AcceptStep).gListenFd = -1 →
      (runLoop 2 ([⟨7, 3⟩] ++ (⟨-1, -1⟩ : AcceptStep) :: [])).1 = RunExit.normal ∧
      (runLoop 2 ([⟨7, 3⟩] ++ (⟨-1, -1⟩ : AcceptStep) :: [])).2.countP
        RunEvent.isShutdownCall = 1) ∧
    ((⟨-1, -1⟩ : AcceptStep).gListenFd ≠ -1 →
      (runLoop 2 ([⟨7, 3⟩] ++ (⟨-1, -1⟩ : AcceptStep) :: [])).1 =
        RunExit.threw (CppError.osError "accept") ∧
      (runLoop 2 ([⟨7, 3⟩] ++ (⟨-1, -1⟩ : AcceptStep) :: [])).2.countP
        RunEvent.isShutdownCall = 0) ∧
    ((runLoop 2 [⟨7, 3⟩]).1 = RunExit.pending ∧
      (runLoop 2 [⟨7, 3⟩]).2.countP RunEvent.isShutdownCall = 0) :=
  C4_run_accept_failure_paths 2 [⟨7, 3⟩] [] ⟨-1, -1⟩ (by decide) (by decide)

/-- Both branches of a monitor round replace the cached snapshots with the
current ones. -/
theorem loadRound_fst (cache us : List Rusage) : (loadRound cache us).1 = us := by
  unfold loadRound
  split <;> rfl

/-- From any starting cache, the output of round `k+1` (0-based) is computed
from the snapshots of rounds `k` and `k+1` — i.e. each round's snapshots
become the cache the next round diffs against. -/
theorem loadLoop_succ_getD : ∀ (rounds : List (List Rusage)) (cache : List Rusage)
    (k : Nat), (∀ r ∈ rounds, r ≠ []) → k + 1 < rounds.length →
    (loadLoop cache rounds).getD (k + 1) none =
      some ((List.range ((rounds.getD (k + 1) []).length)).map fun i =>
        loadOf ((rounds.getD k []).getD i default)
               ((rounds.getD (k + 1) []).getD i default)) := by
  intro rounds
  induction rounds with
  | nil =>
    intro cache k _ hk
    simp at hk
  | cons us rest ih =>
    intro cache k hne hk
    have hstep : loadLoop cache (us :: rest) =
        (loadRound cache us).2 :: loadLoop us rest := by
      rw [loadLoop, loadRound_fst]
    cases k with
    | zero =>
      cases rest with
      | nil => simp at hk
      | cons r1 rest2 =>
        have hus : us ≠ [] := hne us (by simp)
        have hr : loadLoop us (r1 :: rest2) =
            (loadRound us r1).2 :: loadLoop r1 rest2 := by
          rw [loadLoop, loadRound_fst]
        rw [hstep, List.getD_cons_succ, hr, List.getD_cons_zero]
        have hemp : us.isEmpty = false := by
          cases us with
          | nil => exact absurd rfl hus
          | cons a as => rfl
        simp [loadRound, hemp]
    | succ k2 =>
      rw [hstep, List.getD_cons_succ]
      have := ih us k2 (fun r hr => hne r (by simp [hr])) (by simpa using hk)
      simpa using this

/-- C6: starting from the empty cache, the first completed monitor round
reports no delta (baseline only); every later round `k+1` reports, for each
worker `i`, the load derived from the current and the previous round's
snapshots — the elapsed CPU time `totalElapsed(cur) - totalElapsed(last)`
(user + system, microseconds) scaled by `100 / 10^6`, the round interval
being one second — and each round's snapshots become the next round's cache. -/
theorem C6_load_monitor_baseline_then_deltas (rounds : List (List Rusage))
    (k : Nat) (hne : ∀ r ∈ rounds, r ≠ []) (h0 : 0 < rounds.length)
    (hk : k + 1 < rounds.length) :
    (loadLoop [] rounds).getD 0 (some []) = none ∧
    (loadLoop [] rounds).getD (k + 1) none =
      some ((List.range ((rounds.getD (k + 1) []).length)).map fun i =>
        loadOf ((rounds.getD k []).getD i default)
               ((rounds.getD (k + 1) []).getD i default)) ∧
    (∀ last cur, loadOf last cur =
      ((totalElapsed cur - totalElapsed last : Int) : ℚ) * 100 / 1000000) ∧
    (∀ u, totalElapsed u =
      (u.utimeSec * 1000000 + u.utimeUsec) + (u.stimeSec * 1000000 + u.stimeUsec)) := by
  refine ⟨?_, loadLoop_succ_getD rounds [] k hne hk, fun last cur => rfl,
    fun u => by unfold totalElapsed; ring⟩
  cases rounds with
  | nil => simp at h0
  | cons r rest =>
    rw [loadLoop, loadRound_fst, List.getD_cons_zero]
    rfl

/-- The all-idle baseline snapshot used by the C6 witness. -/
def usageA : Rusage := ⟨0, 0, 0, 0⟩

/-- A snapshot with 500000 µs of cumulative user CPU time, used by the C6
witness. -/
def usageB : Rusage := ⟨0, 500000, 0, 0⟩

/-- Witness for C6 on two one-worker rounds: baseline, then a round whose
worker gained half a second of CPU time. -/
theorem C6_witness :
    (loadLoop [] [[usageA], [usageB]]).getD 0 (some []) = none ∧
    (loadLoop [] [[usageA], [usageB]]).getD 1 none =
      some ((List.range (([[usageA], [usageB]].getD 1 []).length)).map fun i =>
        loadOf (([[usageA], [usageB]].getD 0 []).getD i default)
               (([[usageA], [usageB]].getD 1 []).getD i default)) ∧
    loadOf usageA usageB =
      ((totalElapsed usageB - totalElapsed usageA : Int) : ℚ) * 100 / 1000000 := by
  have h := C6_load_monitor_baseline_then_deltas [[usageA], [usageB]] 0
    (by intro r hr; simp at hr; rcases hr with h1 | h1 <;> simp [h1])
    (by simp) (by simp)
  exact ⟨h.1, h.2.1, h.2.2.1 usageA usageB⟩

/-- `Listener::init` never touches the `sh` member. -/
theorem init_preserves_sh (st : ListenerState) (w : Nat) (o : OptionFlags)
    (b : Nat) (s : Bool) : ((Listener.init st w o b s).2).sh = st.sh := by
  unfold Listener.init
  split <;> rfl

/-- A `bind` call on a listener whose flag is clear leaves it clear: the
throwing paths do not reach the flag and the success path executes
`sh = false`. -/
theorem bind_keeps_sh_false (st : ListenerState) (a : Address) (env : BindEnv)
    (h : st.sh = false) : ((Listener.bind st a env).2.1).sh = false := by
  unfold Listener.bind
  split
  · exact h
  · split
    · exact h
    · rcases hbl : bindLoop env.candidates (-1) [] with e | p <;> simp [hbl, h]

/-- Any call other than `bind` leaves a set flag set. -/
theorem applyOp_keeps_sh_true (st : ListenerState) (op : LOp)
    (hb : op.isBind = false) (hsh : st.sh = true) : (applyOp st op).sh = true := by
  cases op with
  | opInit w o b s => rw [applyOp, init_preserves_sh]; exact hsh
  | opBind a env => simp [LOp.isBind] at hb
  | opRun steps =>
    rw [applyOp]
    split
    · rfl
    · exact hsh
  | opShutdown => rfl

/-- The flag trace always starts with the current flag value. -/
theorem shTrace_head (st : ListenerState) (ops : List LOp) :
    ∃ t, shTrace st ops = st.sh :: t := by
  cases ops with
  | nil => exact ⟨[], rfl⟩
  | cons op rest => exact ⟨_, rfl⟩

/-- An all-`true` trace contains no reset. -/
theorem hasReset_replicate_true (n : Nat) :
    hasReset (List.replicate n true) = false := by
  induction n with
  | zero => rfl
  | succ m ih =>
    cases m with
    | zero => rfl
    | succ m2 =>
      rw [List.replicate_succ, List.replicate_succ]
      show hasReset (true :: true :: List.replicate m2 true) = false
      rw [hasReset, ← List.replicate_succ]
      simpa using ih

/-- An all-`true` trace contains no rise. -/
theorem riseCount_replicate_true (n : Nat) :
    riseCount (List.replicate n true) = 0 := by
  induction n with
  | zero => rfl
  | succ m ih =>
    cases m with
    | zero => rfl
    | succ m2 =>
      rw [List.replicate_succ, List.replicate_succ]
      show riseCount (true :: true :: List.replicate m2 true) = 0
      rw [riseCount, ← List.replicate_succ]
      simpa using ih

/-- A leading `false` cannot be the left half of a reset. -/
theorem hasReset_cons_false (l : List Bool) :
    hasReset (false :: l) = hasReset l := by
  cases l <;> simp [hasReset]

/-- Rises counted after a leading `false`. -/
theorem riseCount_cons_false (b : Bool) (r : List Bool) :
    riseCount (false :: b :: r) = (if b then 1 else 0) + riseCount (b :: r) := by
  simp [riseCount]

/-- The shutdown-flag invariant of the call machine: from a set flag, a
bind-free call suffix keeps the trace constantly `true`; from a clear flag, a
call sequence with no `bind` after any `shutdown` or `run` produces a trace
with no reset and at most one rise. -/
theorem shTrace_invariant : ∀ (ops : List LOp) (st : ListenerState),
    (st.sh = true → ops.all (fun o => !o.isBind) = true →
      shTrace st ops = List.replicate (ops.length + 1) true) ∧
    (st.sh = false → noBindAfterStop ops = true →
      hasReset (shTrace st ops) = false ∧ riseCount (shTrace st ops) ≤ 1) := by
  intro ops
  induction ops with
  | nil =>
    intro st
    refine ⟨fun h1 _ => ?_, fun h1 _ => ?_⟩
    · simp [shTrace, h1, List.replicate]
    · simp [shTrace, h1, hasReset, riseCount]
  | cons op rest ih =>
    intro st
    constructor
    · intro hsh hall
      simp only [List.all_cons, Bool.and_eq_true, Bool.not_eq_true'] at hall
      have hst2 : (applyOp st op).sh = true :=
        applyOp_keeps_sh_true st op hall.1 hsh
      show st.sh :: shTrace (applyOp st op) rest = _
      rw [(ih (applyOp st op)).1 hst2 hall.2, hsh, List.length_cons]
      simp [List.replicate_succ]
    · intro hsh hno
      show hasReset (st.sh :: shTrace (applyOp st op) rest) = false ∧
        riseCount (st.sh :: shTrace (applyOp st op) rest) ≤ 1
      rw [hsh]
      -- split on whether this call sets the flag
      by_cases hset : (applyOp st op).sh = true
      · -- the suffix must be bind-free, so the tail trace is all `true`
        have hflag : op.isFlagSetting = true := by
          cases op with
          | opInit w o b s =>
            rw [applyOp, init_preserves_sh] at hset
            rw [hsh] at hset
            exact absurd hset (by simp)
          | opBind a env =>
            rw [applyOp] at hset
            rw [bind_keeps_sh_false st a env hsh] at hset
            exact absurd hset (by simp)
          | opRun steps => rfl
          | opShutdown => rfl
        simp only [noBindAfterStop, hflag, if_true, Bool.and_eq_true] at hno
        have htail := (ih (applyOp st op)).1 hset hno.1
        rw [htail, hasReset_cons_false, hasReset_replicate_true,
          List.replicate_succ, riseCount_cons_false, ← List.replicate_succ,
          riseCount_replicate_true]
        simp
      · -- the flag stays clear across this call
        have hst2 : (applyOp st op).sh = false :=
          Bool.not_eq_true _ ▸ Bool.of_not_eq_true hset
        have hno2 : noBindAfterStop rest = true := by
          by_cases hflag : op.isFlagSetting = true
          · simp only [noBindAfterStop, hflag, if_true, Bool.and_eq_true] at hno
            exact hno.2
          · simpa only [noBindAfterStop, hflag, if_false,
              Bool.not_eq_true] using hno
        have htail := (ih (applyOp st op)).2 hst2 hno2
        obtain ⟨t, ht⟩ := shTrace_head (applyOp st op) rest
        rw [ht, hst2] at htail ⊢
        rw [hasReset_cons_false, riseCount_cons_false]
        simpa using htail

/-- The C3 counterexample call sequence: initialize one worker, bind (all
syscalls succeeding, empty candidate list), shut down, then bind again. -/
def cexOps : List LOp :=
  [LOp.opInit 1 {} 128 true,
   LOp.opBind ⟨"*", 8080⟩ ⟨true, []⟩,
   LOp.opShutdown,
   LOp.opBind ⟨"*", 8080⟩ ⟨true, []⟩]

/-- C3 fails on the code as stated: `bind` executes `sh = false`
unconditionally on its success path (listener.cc 179), so the reachable call
sequence init–bind–shutdown–bind drives the flag `true → false` — a reset the
claimed invariant forbids. -/
theorem C3_counterexample_flag_reset :
    shTrace (freshListener ⟨"*", 8080⟩ 128 false) cexOps =
      [false, false, false, true, false] ∧
    hasReset (shTrace (freshListener ⟨"*", 8080⟩ 128 false) cexOps) = true :=
  ⟨rfl, rfl⟩

/-- C3 (amended): the flag is cleared by every successful `bind` and set by
`shutdown` (and by `run`'s signal path); in every execution that starts with
the flag clear and calls no `bind` after any `shutdown` or `run`, the flag is
never reset from `true` to `false` and transitions from `false` to `true` at
most once. -/
theorem C3_amended_flag_monotone_without_rebind (st : ListenerState)
    (ops : List LOp) (hsh : st.sh = false)
    (horder : noBindAfterStop ops = true) :
    hasReset (shTrace st ops) = false ∧ riseCount (shTrace st ops) ≤ 1 :=
  (shTrace_invariant ops st).2 hsh horder

/-- Witness for the amended C3 on the sequence init–bind–run(signal)–shutdown. -/
theorem C3_witness :
    hasReset (shTrace (freshListener ⟨"*", 8080⟩ 128 false)
      [LOp.opInit 1 {} 128 true, LOp.opBind ⟨"*", 8080⟩ ⟨true, []⟩,
       LOp.opRun [⟨-1, -1⟩], LOp.opShutdown]) = false ∧
    riseCount (shTrace (freshListener ⟨"*", 8080⟩ 128 false)
      [LOp.opInit 1 {} 128 true, LOp.opBind ⟨"*", 8080⟩ ⟨true, []⟩,
       LOp.opRun [⟨-1, -1⟩], LOp.opShutdown]) ≤ 1 :=
  C3_amended_flag_monotone_without_rebind (freshListener ⟨"*", 8080⟩ 128 false)
    [LOp.opInit 1 {} 128 true, LOp.opBind ⟨"*", 8080⟩ ⟨true, []⟩,
     LOp.opRun [⟨-1, -1⟩], LOp.opShutdown] rfl rfl

end Tcp
